import Mathlib

/-!
Verification of the jwt_tool repository (Go, `main.go`) against its
natural-language specification.

The Go program is shallowly embedded: every function of `main.go`
(`generateJTI`, `getJwkSet`, `verifyToken`, `createToken`, `checkConfig`,
`main`) becomes an executable Lean definition over an explicit environment
(file system, network, clock, randomness).  Library calls
(`encoding/pem`, `crypto/x509`, `github.com/golang-jwt/jwt/v5`,
`github.com/lestrrat-go/jwx/jwk`) are modelled over symbolic key documents
and an idealized (existentially unforgeable) model of RSA signatures; each
model definition carries a doc comment naming the library function it
embeds.  Side effects (file reads, HTTP fetches, console prints, signing)
are returned as an explicit effect trace.
-/

deriving instance DecidableEq for Except


namespace JwtTool

/-- JSON-compatible values, as stored in Go `map[string]interface` claim
maps after `json.Unmarshal` (numbers modelled as integers — the tool only
manipulates Unix-second integers and strings). -/
inductive JValue where
  | null
  | bool (b : Bool)
  | num (n : Int)
  | str (s : String)
  deriving DecidableEq, Repr

/-- `jwt.MapClaims` / `map[string]interface`: association list from claim
name to value, first occurrence authoritative. -/
abbrev Claims := List (String × JValue)

/-- Go map read `m[k]`: `none` when the key is absent. -/
def mapGet : Claims → String → Option JValue
  | [], _ => none
  | (k', v') :: rest, k => if k' == k then some v' else mapGet rest k

/-- Go map write `m[k] = v`: update in place, else append. -/
def mapSet : Claims → String → JValue → Claims
  | [], k, v => [(k, v)]
  | (k', v') :: rest, k, v =>
      if k' == k then (k', v) :: rest else (k', v') :: mapSet rest k v

/-- The Go test `m[k] == nil` on a `map[string]interface`: true when the
key is absent or its stored value is a nil interface (JSON `null`). -/
def goNil (m : Claims) (k : String) : Bool :=
  match mapGet m k with
  | none => true
  | some .null => true
  | some _ => false

/-- `map[string]*string` (the config `header` field): a stored `none` is a
nil pointer. -/
abbrev Headers := List (String × Option String)

/-- Go read `hs[k]` on a `map[string]*string`, as observed through the
program's `!= nil` tests: yields the string when the key is present with a
non-nil pointer, and `none` (nil pointer) otherwise. -/
def headerGet : Headers → String → Option String
  | [], _ => none
  | (k', v') :: rest, k => if k' == k then v' else headerGet rest k

/-- `rsa.PublicKey`: modulus and exponent. -/
structure RSAPub where
  n : Nat
  e : Nat
  deriving DecidableEq, Repr

/-- `rsa.PrivateKey` (the fields the tool observes). -/
structure RSAPriv where
  n : Nat
  e : Nat
  d : Nat
  deriving DecidableEq, Repr

/-- The public half of an RSA private key. -/
def rsaPublic (k : RSAPriv) : RSAPub := ⟨k.n, k.e⟩

/-- Symbolic DER payloads produced/consumed through `crypto/x509`. -/
inductive KeyDoc where
  | pkcs1PublicKey (k : RSAPub)
  | pkixPublicKey (k : RSAPub)
  | certificate (k : RSAPub)
  | pkcs1PrivateKey (k : RSAPriv)
  | pkcs8PrivateKey (k : RSAPriv)
  deriving DecidableEq, Repr

/-- `pem.Block`: a label and DER bytes. -/
structure PEMBlock where
  type : String
  bytes : KeyDoc
  deriving DecidableEq, Repr

/-- One entry of a JWK set document (the fields `getJwkSet` observes
through `jwx/jwk`: key type, key id, decoded modulus and exponent). -/
structure JWKKey where
  kty : String
  kid : String
  n : Nat
  e : Nat
  deriving DecidableEq, Repr

/-- `Config` struct of `main.go` (claims, header, well-known endpoint,
`jwk_local` flag). -/
structure Config where
  claims : Claims
  header : Headers
  wellKnownEndpoint : Option String
  jwkLocal : Bool
  deriving DecidableEq, Repr

/-- Symbolic byte strings flowing through the program: PEM documents, JWK
set documents, config JSON documents, and unstructured bytes. -/
inductive Bytes where
  | pemData (b : PEMBlock)
  | jwksDoc (keys : List JWKKey)
  | configDoc (c : Config)
  | raw (s : String)
  deriving DecidableEq, Repr

/-- An `http.Response` as observed by `getJwkSet`: status code and body. -/
structure HTTPResponse where
  statusCode : Nat
  body : Bytes
  deriving DecidableEq, Repr

/-- Go errors distinguished by the program (construction sites in
`main.go` and in the modelled libraries). -/
inductive GoError where
  | fileReadError (path : String)
  | httpTransportError (url : String)
  | keyMustBePEMEncoded
  | x509ParseError
  | jwkParseError
  | jwkRawNotRSA
  | noKeyFound
  | unexpectedSigningMethod (alg : String)
  | tokenSignatureInvalid
  | tokenExpired
  | tokenNotValidYet
  | invalidClaimType
  | jsonUnmarshalError
  | missingConfigField (field : String)
  | configFileRequired
  | randError
  | wrapped (stage : String) (e : GoError)
  deriving DecidableEq, Repr

/-- JWT signing methods (`alg` header values known to golang-jwt). -/
inductive SigningMethod where
  | RS256 | RS384 | RS512
  | PS256 | PS384 | PS512
  | HS256 | HS384 | HS512
  | ES256 | ES384 | ES512
  | noneAlg
  deriving DecidableEq, Repr

/-- The header `alg` string of a signing method. -/
def SigningMethod.algName : SigningMethod → String
  | .RS256 => "RS256"
  | .RS384 => "RS384"
  | .RS512 => "RS512"
  | .PS256 => "PS256"
  | .PS384 => "PS384"
  | .PS512 => "PS512"
  | .HS256 => "HS256"
  | .HS384 => "HS384"
  | .HS512 => "HS512"
  | .ES256 => "ES256"
  | .ES384 => "ES384"
  | .ES512 => "ES512"
  | .noneAlg => "none"

/-- The Go type assertion `token.Method.(*jwt.SigningMethodRSA)` in
`verifyToken`: true exactly for the RSA-PKCS1v1.5 methods RS256/RS384/
RS512 (golang-jwt's PSS, HMAC, ECDSA and `none` methods are distinct Go
types, so the assertion fails on them). -/
def SigningMethod.isRSAMethod : SigningMethod → Bool
  | .RS256 | .RS384 | .RS512 => true
  | _ => false

/-- HMAC family (`*jwt.SigningMethodHMAC`). -/
def SigningMethod.isHMAC : SigningMethod → Bool
  | .HS256 | .HS384 | .HS512 => true
  | _ => false

/-- A decoded JOSE header as constructed by `jwt.NewWithClaims` plus the
`kid` override (`typ`, `alg`, optional `kid`). -/
structure TokenHeader where
  alg : SigningMethod
  typ : String
  kid : Option String
  deriving DecidableEq, Repr

/-- Symbolic signature values.  An RSA signature records the method, the
signed header/payload and the signing key; verification is idealized as
existential unforgeability: it succeeds exactly on a signature produced by
the matching private key over the same signing input. -/
inductive Signature where
  | rsaSig (alg : SigningMethod) (header : TokenHeader) (payload : Claims) (key : RSAPriv)
  | hmacSig (alg : SigningMethod) (header : TokenHeader) (payload : Claims) (secret : String)
  | emptySig
  | rawSig (s : String)
  deriving DecidableEq, Repr

/-- A compact-serialized JWT `header.payload.signature` string, kept in
decoded form (JSON/base64url serialization is injective, so the string
and its decoding are identified). -/
structure SerializedJWT where
  header : TokenHeader
  payload : Claims
  sig : Signature
  deriving DecidableEq, Repr

/-- `token.Method.Verify(signingString, sig, key)` for a key of Go type
`*rsa.PublicKey` (the only key type `verifyToken`'s keyfunc returns):
RS256/384/512 verify an RSA signature by the matching key over the same
signing input; every other method errors on an `*rsa.PublicKey` key
(HMAC requires a byte slice, `none` requires its unsafe marker, ECDSA an
ECDSA key), modelled as `false`. -/
def methodVerify (m : SigningMethod) (h : TokenHeader) (p : Claims)
    (s : Signature) (key : RSAPub) : Bool :=
  if m.isRSAMethod then
    match s with
    | .rsaSig m' h' p' sk => m' == m && h' == h && p' == p && rsaPublic sk == key
    | _ => false
  else false

/-- Effect trace entries: file reads, HTTP fetches, console prints and
signing operations, in program order. -/
inductive Effect where
  | fileRead (path : String)
  | httpGet (url : String)
  | printWarn (kid : String)
  | printErr (e : GoError)
  | signOp
  | printToken
  deriving DecidableEq, Repr

/-- The ambient environment of one invocation: file system, network,
the Unix-second clock at each `time.Now()` call site (exp default, iat
default, verification-time validation) and the `crypto/rand` source. -/
structure Env where
  fs : String → Option Bytes
  net : String → Option HTTPResponse
  tExp : Int
  tIat : Int
  tVerify : Int
  randBytes : Nat → Nat
  randOk : Bool

/-- The 16 bytes `rand.Read` fills into `b := make([]byte, 16)`. -/
def rand16 (env : Env) : List Nat :=
  (List.range 16).map (fun i => env.randBytes i % 256)

/-- The RFC 4648 URL-safe base64 alphabet used by `base64.URLEncoding`. -/
def b64urlAlphabet : List Char :=
  "ABCDEFGHIJKLMNOPQRSTUVWXYZabcdefghijklmnopqrstuvwxyz0123456789-_".toList

/-- Character at index `i` (< 64) of the URL-safe alphabet. -/
def b64Char (i : Nat) : Char := b64urlAlphabet.getD i '='

/-- Groups of three bytes encoded to four characters, with `=` padding,
as `base64.URLEncoding.EncodeToString` does. -/
def base64URLEncodeAux : List Nat → List Char
  | [] => []
  | [a] =>
      [b64Char (a / 4), b64Char (a % 4 * 16), '=', '=']
  | [a, b] =>
      [b64Char (a / 4), b64Char (a % 4 * 16 + b / 16), b64Char (b % 16 * 4), '=']
  | a :: b :: c :: rest =>
      b64Char (a / 4) :: b64Char (a % 4 * 16 + b / 16) ::
      b64Char (b % 16 * 4 + c / 64) :: b64Char (c % 64) ::
      base64URLEncodeAux rest

/-- `base64.URLEncoding.EncodeToString`. -/
def base64URLEncode (bs : List Nat) : String := String.mk (base64URLEncodeAux bs)

/-- `generateJTI` of `main.go`: 16 bytes from `crypto/rand`, URL-safe
base64 encoded; surfaces the (theoretical) `rand.Read` error. -/
def generateJTI (env : Env) : Except GoError String :=
  if env.randOk then .ok (base64URLEncode (rand16 env)) else .error .randError

/-- `pem.EncodeToMemory`. -/
def pemEncodeToMemory (b : PEMBlock) : Bytes := .pemData b

/-- `pem.Decode` (first block; `none` when the input is not PEM). -/
def pemDecode : Bytes → Option PEMBlock
  | .pemData b => some b
  | _ => none

/-- `x509.MarshalPKCS1PublicKey`. -/
def marshalPKCS1PublicKey (k : RSAPub) : KeyDoc := .pkcs1PublicKey k

/-- `x509.ParsePKIXPublicKey`: accepts only SubjectPublicKeyInfo (PKIX)
documents; PKCS#1 bytes and certificates are rejected. -/
def parsePKIXPublicKey : KeyDoc → Except GoError RSAPub
  | .pkixPublicKey k => .ok k
  | _ => .error .x509ParseError

/-- `x509.ParseCertificate` followed by taking the certificate's RSA
public key. -/
def parseCertificate : KeyDoc → Except GoError RSAPub
  | .certificate k => .ok k
  | _ => .error .x509ParseError

/-- `x509.ParsePKCS1PublicKey`. -/
def parsePKCS1PublicKey : KeyDoc → Except GoError RSAPub
  | .pkcs1PublicKey k => .ok k
  | _ => .error .x509ParseError

/-- `x509.ParsePKCS1PrivateKey`. -/
def parsePKCS1PrivateKey : KeyDoc → Except GoError RSAPriv
  | .pkcs1PrivateKey k => .ok k
  | _ => .error .x509ParseError

/-- `x509.ParsePKCS8PrivateKey` (restricted to RSA content, the only kind
the tool feeds it). -/
def parsePKCS8PrivateKey : KeyDoc → Except GoError RSAPriv
  | .pkcs8PrivateKey k => .ok k
  | _ => .error .x509ParseError

/-- golang-jwt v5 `jwt.ParseRSAPublicKeyFromPEM` (`rsa_utils.go`): PEM
decode, then try PKIX, then certificate, then PKCS#1. -/
def parseRSAPublicKeyFromPEM (key : Bytes) : Except GoError RSAPub :=
  match pemDecode key with
  | none => .error .keyMustBePEMEncoded
  | some block =>
    match parsePKIXPublicKey block.bytes with
    | .ok k => .ok k
    | .error _ =>
      match parseCertificate block.bytes with
      | .ok k => .ok k
      | .error _ => parsePKCS1PublicKey block.bytes

/-- golang-jwt v5 `jwt.ParseRSAPrivateKeyFromPEM`: PEM decode, try
PKCS#1 then PKCS#8. -/
def parseRSAPrivateKeyFromPEM (key : Bytes) : Except GoError RSAPriv :=
  match pemDecode key with
  | none => .error .keyMustBePEMEncoded
  | some block =>
    match parsePKCS1PrivateKey block.bytes with
    | .ok k => .ok k
    | .error _ => parsePKCS8PrivateKey block.bytes

/-- `jwk.Parse` of `lestrrat-go/jwx`: succeeds exactly on a JWK set
document. -/
def jwkParse : Bytes → Except GoError (List JWKKey)
  | .jwksDoc keys => .ok keys
  | _ => .error .jwkParseError

/-- `jwkSet.LookupKeyID(kid)`: first key whose `kid` equals the requested
key id (Go string equality — case-sensitive, exact). -/
def lookupKeyID (keys : List JWKKey) (kid : String) : Option JWKKey :=
  keys.find? (fun k => k.kid == kid)

/-- `jwkSet.Get(0)`. -/
def jwkGet0 (keys : List JWKKey) : Option JWKKey := keys.head?

/-- `jwkKey.Raw(&rawKey)` into an `rsa.PublicKey`: succeeds for RSA keys,
yielding the decoded modulus and exponent. -/
def jwkRaw (k : JWKKey) : Except GoError RSAPub :=
  if k.kty == "RSA" then .ok ⟨k.n, k.e⟩ else .error .jwkRawNotRSA

/-- `GetJWKSetParams` struct of `main.go`. -/
structure GetJWKSetParams where
  wellKnownEndpoint : String
  jwkFile : String
  kid : Option String
  debug : Bool

/-- Fetch stage of `getJwkSet` (lines 83-104): read the local JWK file
when `JWKFile` is non-empty, otherwise `http.Get` the well-known
endpoint.  `http.Get` errors only on transport failure; the status code
of a received response is never inspected and its body is used as-is. -/
def fetchJwkJSON (env : Env) (params : GetJWKSetParams) :
    List Effect × Except GoError Bytes :=
  if params.jwkFile != "" then
    ([.fileRead params.jwkFile],
      match env.fs params.jwkFile with
      | some b => .ok b
      | none => .error (.fileReadError params.jwkFile))
  else
    ([.httpGet params.wellKnownEndpoint],
      match env.net params.wellKnownEndpoint with
      | some resp => .ok resp.body
      | none => .error (.httpTransportError params.wellKnownEndpoint))

/-- Key-selection stage of `getJwkSet` (lines 118-134): with a requested
kid, `LookupKeyID`, on miss print a warning and fall back to `Get(0)`;
without a kid, `Get(0)`; error when no key can be produced. -/
def selectJwkKey (keys : List JWKKey) (kid : Option String) :
    List Effect × Except GoError JWKKey :=
  match kid with
  | some k =>
    match lookupKeyID keys k with
    | some key => ([], .ok key)
    | none =>
      match jwkGet0 keys with
      | some key => ([.printWarn k], .ok key)
      | none => ([.printWarn k], .error .noKeyFound)
  | none =>
    match jwkGet0 keys with
    | some key => ([], .ok key)
    | none => ([], .error .noKeyFound)

/-- `getJwkSet` of `main.go`: fetch the JWK document, parse it, select a
key, extract the RSA public key, and re-encode it as PKCS#1 DER under a
`PUBLIC KEY` PEM label. -/
def getJwkSet (env : Env) (params : GetJWKSetParams) :
    List Effect × Except GoError Bytes :=
  match fetchJwkJSON env params with
  | (tr, .error e) => (tr, .error e)
  | (tr, .ok jwkJSON) =>
    match jwkParse jwkJSON with
    | .error e => (tr, .error e)
    | .ok jwkSet =>
      match selectJwkKey jwkSet params.kid with
      | (tr2, .error e) => (tr ++ tr2, .error e)
      | (tr2, .ok jwkKey) =>
        match jwkRaw jwkKey with
        | .error e => (tr ++ tr2, .error e)
        | .ok rawKey =>
          (tr ++ tr2,
            .ok (pemEncodeToMemory
              { type := "PUBLIC KEY", bytes := marshalPKCS1PublicKey rawKey }))

/-- `MapClaims.parseNumericDate` of golang-jwt v5: absent key yields no
date, a numeric zero yields no date, a number yields the date, and any
other stored value (including JSON null) is an invalid-type error. -/
def parseNumericDate (p : Claims) (k : String) : Except GoError (Option Int) :=
  match mapGet p k with
  | none => .ok none
  | some (.num v) => if v == 0 then .ok none else .ok (some v)
  | some _ => .error .invalidClaimType

/-- The golang-jwt v5 default validator run by `jwt.Parse`: `exp` must be
in the future when present (`now.Before(exp)`), `nbf` must not be in the
future when present; `iat` is not checked by default. -/
def validateClaims (now : Int) (p : Claims) : Except GoError Unit :=
  match parseNumericDate p "exp" with
  | .error e => .error e
  | .ok expv =>
    match expv with
    | some e => if now < e then validateNbf now p else .error .tokenExpired
    | none => validateNbf now p
where
  /-- `verifyNotBefore`. -/
  validateNbf (now : Int) (p : Claims) : Except GoError Unit :=
    match parseNumericDate p "nbf" with
    | .error e => .error e
    | .ok (some b) => if now < b then .error .tokenNotValidYet else .ok ()
    | .ok none => .ok ()

/-- `jwt.Parse(tokenString, keyfunc)` of golang-jwt v5: run the keyfunc
(its error aborts parsing), verify the signature with the declared
method, then run the default claims validator at the current time. -/
def jwtParse (t : SerializedJWT) (kf : SerializedJWT → Except GoError RSAPub)
    (now : Int) : Except GoError SerializedJWT :=
  match kf t with
  | .error e => .error e
  | .ok key =>
    if methodVerify t.header.alg t.header t.payload t.sig key then
      match validateClaims now t.payload with
      | .ok _ => .ok t
      | .error e => .error e
    else .error .tokenSignatureInvalid

/-- `verifyToken` of `main.go` (lines 153-171): parse the PEM public key,
then `jwt.Parse` with a keyfunc accepting only `*jwt.SigningMethodRSA`
methods. -/
def verifyToken (tokenString : SerializedJWT) (publicKey : Bytes)
    (now : Int) : Except GoError SerializedJWT :=
  match parseRSAPublicKeyFromPEM publicKey with
  | .error e => .error e
  | .ok parsedPublicKey =>
    jwtParse tokenString
      (fun token =>
        if token.header.alg.isRSAMethod then .ok parsedPublicKey
        else .error (.unexpectedSigningMethod token.header.alg.algName))
      now

/-- `CreateTokenParams` struct of `main.go`. -/
structure CreateTokenParams where
  claims : Claims
  headers : Headers
  privateKeyFilePath : String
  wellKnownEndpoint : String
  jwkFile : String
  debug : Bool

/-- Lines 174-176 of `createToken`: default `exp` to
`time.Now().Add(24h).Unix()` when nil. -/
def defaultExp (env : Env) (claims : Claims) : Claims :=
  if goNil claims "exp" then mapSet claims "exp" (.num (env.tExp + 86400)) else claims

/-- Lines 178-180 of `createToken`: default `iat` to `time.Now().Unix()`
when nil. -/
def defaultIat (env : Env) (claims : Claims) : Claims :=
  if goNil claims "iat" then mapSet claims "iat" (.num env.tIat) else claims

/-- Claim-defaulting prefix of `createToken` (lines 174-188): default
`exp` to now + 24h (Unix seconds), `iat` to now, `jti` to a fresh
URL-safe-base64 JTI — each only when the stored value is nil. -/
def defaultClaims (env : Env) (claims : Claims) : Except GoError Claims :=
  let c2 := defaultIat env (defaultExp env claims)
  if goNil c2 "jti" then
    match generateJTI env with
    | .ok jti => .ok (mapSet c2 "jti" (.str jti))
    | .error e => .error (.wrapped "createToken:generateJTI" e)
  else .ok c2

/-- The header of `jwt.NewWithClaims(jwt.SigningMethodRS256, claims)`. -/
def newWithClaimsHeader (m : SigningMethod) : TokenHeader :=
  { alg := m, typ := "JWT", kid := none }

/-- `token.SignedString(privateKey)` for an RSA method: serialize and
sign; in the symbolic signature model the produced signature records the
signing input and key. -/
def signedString (h : TokenHeader) (p : Claims) (m : SigningMethod)
    (sk : RSAPriv) : SerializedJWT :=
  { header := h, payload := p, sig := .rsaSig m h p sk }

/-- Header construction of `createToken` (lines 200-203): start from the
`jwt.NewWithClaims(jwt.SigningMethodRS256, ...)` header and set `kid`
exactly when `params.Headers["kid"] != nil` (the value is copied
verbatim, empty or not). -/
def tokenHeaderOf (headers : Headers) : TokenHeader :=
  match headerGet headers "kid" with
  | some kid => { newWithClaimsHeader .RS256 with kid := some kid }
  | none => newWithClaimsHeader .RS256

/-- `createToken` of `main.go` (lines 173-234): default claims, read and
parse the private key, build the RS256 token with optional `kid` header,
sign, resolve the verification key via `getJwkSet`, self-verify, and
return the token string only when verification succeeded. -/
def createToken (env : Env) (params : CreateTokenParams) :
    List Effect × Except GoError SerializedJWT :=
  match defaultClaims env params.claims with
  | .error e => ([], .error e)
  | .ok claims =>
    let tr0 := [Effect.fileRead params.privateKeyFilePath]
    match env.fs params.privateKeyFilePath with
    | none => (tr0, .error (.wrapped "createToken:ReadFile"
                (.fileReadError params.privateKeyFilePath)))
    | some pkBytes =>
      match parseRSAPrivateKeyFromPEM pkBytes with
      | .error e => (tr0, .error (.wrapped "createToken:ParseRSAPrivateKeyFromPEM" e))
      | .ok privateKey =>
        let header := tokenHeaderOf params.headers
        let tokenString := signedString header claims .RS256 privateKey
        let tr1 := tr0 ++ [Effect.signOp]
        match getJwkSet env
            { wellKnownEndpoint := params.wellKnownEndpoint,
              jwkFile := params.jwkFile,
              kid := headerGet params.headers "kid",
              debug := params.debug } with
        | (tr2, .error e) => (tr1 ++ tr2, .error (.wrapped "getJwkSet" e))
        | (tr2, .ok publicKey) =>
          match verifyToken tokenString publicKey env.tVerify with
          | .error e => (tr1 ++ tr2, .error (.wrapped "verifyToken" e))
          | .ok _ => (tr1 ++ tr2, .ok tokenString)

/-- `checkConfig` of `main.go` (lines 236-269): read and unmarshal the
config file, then require non-nil `iss`, `aud`, `sub`, `client_id`
claims and a non-nil well-known endpoint, in that order. -/
def checkConfig (env : Env) (configFile : Option String) :
    List Effect × Except GoError Config :=
  match configFile with
  | none => ([], .error .configFileRequired)
  | some path =>
    ([.fileRead path],
      match env.fs path with
      | none => .error (.fileReadError path)
      | some fileBytes =>
        match fileBytes with
        | .configDoc config =>
          if goNil config.claims "iss" then .error (.missingConfigField "iss")
          else if goNil config.claims "aud" then .error (.missingConfigField "aud")
          else if goNil config.claims "sub" then .error (.missingConfigField "sub")
          else if goNil config.claims "client_id" then .error (.missingConfigField "client_id")
          else
            match config.wellKnownEndpoint with
            | none => .error (.missingConfigField "wk_path")
            | some _ => .ok config
        | _ => .error .jsonUnmarshalError)

/-- Command-line flags of `main` (`flag.String`/`flag.Bool` never yield a
nil pointer, but the code tests them against nil, so they are kept
optional). -/
structure Flags where
  configFile : Option String
  privateKeyFile : Option String
  jwkFile : String
  debug : Bool

/-- Terminal outcome of one `main` invocation. -/
inductive MainResult where
  | tokenPrinted (t : SerializedJWT)
  | errorReturned (e : GoError)
  | missingPrivateKeyFlag
  | nilPanic
  deriving DecidableEq, Repr

/-- `main` of `main.go` (lines 271-302).  After a `checkConfig` failure
the code prints the error but has no `return`: it falls through to the
`CreateTokenParams` literal and dereferences the nil `*Config`
(`config.Claims`), which panics before any further effect.  The same nil
dereference would occur on `*config.WellKnownEndpoint`. -/
def goMain (env : Env) (flags : Flags) : List Effect × MainResult :=
  match flags.privateKeyFile with
  | none => ([], .missingPrivateKeyFlag)
  | some privateKeyFilePath =>
    match checkConfig env flags.configFile with
    | (tr, .error e) => (tr ++ [.printErr e], .nilPanic)
    | (tr, .ok config) =>
      match config.wellKnownEndpoint with
      | none => (tr, .nilPanic)
      | some wk =>
        match createToken env
            { claims := config.claims, headers := config.header,
              privateKeyFilePath := privateKeyFilePath,
              wellKnownEndpoint := wk,
              jwkFile := flags.jwkFile, debug := flags.debug } with
        | (tr2, .error e) => (tr ++ tr2 ++ [.printErr e], .errorReturned e)
        | (tr2, .ok tokenString) => (tr ++ tr2 ++ [.printToken], .tokenPrinted tokenString)

/-! ### Concrete fixtures (shared by witnesses and counterexamples) -/

/-- A concrete RSA private key (symbolic — the signature model never
computes modular arithmetic). -/
def skW : RSAPriv := { n := 3233, e := 17, d := 413 }

/-- The JWK entry holding the public half of `skW`, kid `k1`. -/
def keyW : JWKKey := { kty := "RSA", kid := "k1", n := 3233, e := 17 }

/-- PEM file content for `skW` (PKCS#1 private key). -/
def pemPrivW : Bytes := .pemData { type := "RSA PRIVATE KEY", bytes := .pkcs1PrivateKey skW }

/-- A benign environment: private key at `private_key.pem`, JWK set with
the matching public half at `jwks.json`, working randomness, clock at
1000-1002. -/
def envW : Env :=
  { fs := fun p =>
      if p = "private_key.pem" then some pemPrivW
      else if p = "jwks.json" then some (.jwksDoc [keyW])
      else none,
    net := fun _ => none,
    tExp := 1000, tIat := 1001, tVerify := 1002,
    randBytes := fun _ => 0, randOk := true }

/-- JWK set keys for the spec's key-selection example. -/
def kA : JWKKey := { kty := "RSA", kid := "1", n := 101, e := 3 }

/-- Second key of the key-selection example. -/
def kB : JWKKey := { kty := "RSA", kid := "2", n := 103, e := 5 }

/-- A token declaring HS256, carrying an HMAC signature. -/
def hmacTokenW : SerializedJWT :=
  { header := { alg := .HS256, typ := "JWT", kid := none },
    payload := [("iss", .str "x")],
    sig := .hmacSig .HS256 { alg := .HS256, typ := "JWT", kid := none }
             [("iss", .str "x")] "secret" }

/-- The PEM public key the resolver would produce for `keyW`. -/
def pemPubW : Bytes :=
  pemEncodeToMemory { type := "PUBLIC KEY", bytes := marshalPKCS1PublicKey { n := 3233, e := 17 } }

/-- Environment whose endpoint answers 404 with a valid JWK body. -/
def env404 : Env :=
  { fs := fun _ => none,
    net := fun u =>
      if u = "https://wk.test/jwks.json" then
        some { statusCode := 404, body := .jwksDoc [keyW] }
      else none,
    tExp := 0, tIat := 0, tVerify := 0, randBytes := fun _ => 0, randOk := true }

/-- Same as `env404` but answering 200. -/
def env200 : Env :=
  { env404 with
    net := fun u =>
      if u = "https://wk.test/jwks.json" then
        some { statusCode := 200, body := .jwksDoc [keyW] }
      else none }

/-- Remote-fetch resolver parameters. -/
def gparamsRemote : GetJWKSetParams :=
  { wellKnownEndpoint := "https://wk.test/jwks.json", jwkFile := "", kid := none, debug := false }

/-- Local-file resolver parameters pointing at a missing file. -/
def gparamsNoFile : GetJWKSetParams :=
  { wellKnownEndpoint := "https://wk.test/jwks.json", jwkFile := "nofile.json",
    kid := none, debug := false }

/-- Environment with no reachable network. -/
def envNoNet : Env :=
  { fs := fun _ => none, net := fun _ => none,
    tExp := 0, tIat := 0, tVerify := 0, randBytes := fun _ => 0, randOk := true }

/-- Config with all required claims, a local JWK file configured, and no
well-known endpoint. -/
def cfgNoWk : Config :=
  { claims := [("iss", .str "i"), ("aud", .str "a"), ("sub", .str "s"), ("client_id", .str "c")],
    header := [], wellKnownEndpoint := none, jwkLocal := true }

/-- Environment serving `cfgNoWk` at `config.json`. -/
def envNoWk : Env :=
  { fs := fun p => if p = "config.json" then some (.configDoc cfgNoWk) else none,
    net := fun _ => none,
    tExp := 0, tIat := 0, tVerify := 0, randBytes := fun _ => 0, randOk := true }

/-- Config whose claims are iss, aud, sub and azp (no client_id). -/
def cfgAzp : Config :=
  { claims := [("iss", .str "i"), ("aud", .str "a"), ("sub", .str "s"), ("azp", .str "c")],
    header := [], wellKnownEndpoint := some "https://wk.test/jwks.json", jwkLocal := false }

/-- Environment serving `cfgAzp` at `config.json`. -/
def envAzp : Env :=
  { fs := fun p => if p = "config.json" then some (.configDoc cfgAzp) else none,
    net := fun _ => none,
    tExp := 0, tIat := 0, tVerify := 0, randBytes := fun _ => 0, randOk := true }

/-- Config missing `iss` (has aud, sub, client_id and an endpoint). -/
def cfgNoIss : Config :=
  { claims := [("aud", .str "a"), ("sub", .str "s"), ("client_id", .str "c")],
    header := [], wellKnownEndpoint := some "https://wk.test/jwks.json", jwkLocal := false }

/-- Environment serving `cfgNoIss` at `claims.json`; the private key and
JWK sources exist, so any attempt to read them would appear in the
trace. -/
def envNoIss : Env :=
  { fs := fun p =>
      if p = "claims.json" then some (.configDoc cfgNoIss)
      else if p = "private_key.pem" then some pemPrivW
      else if p = "jwks.json" then some (.jwksDoc [keyW])
      else none,
    net := fun _ => none,
    tExp := 0, tIat := 0, tVerify := 0, randBytes := fun _ => 0, randOk := true }

/-- Default flags of `main`. -/
def flagsNoIss : Flags :=
  { configFile := some "claims.json", privateKeyFile := some "private_key.pem",
    jwkFile := "", debug := false }

/-- Creation parameters with the kid override set to the empty string. -/
def paramsEmptyKid : CreateTokenParams :=
  { claims := [("iss", .str "i")], headers := [("kid", some "")],
    privateKeyFilePath := "private_key.pem",
    wellKnownEndpoint := "https://wk.test/jwks.json",
    jwkFile := "jwks.json", debug := false }

/-- Standard creation parameters over `envW` (kid override `k1`). -/
def paramsW : CreateTokenParams :=
  { claims := [("iss", .str "https://issuer.test"), ("aud", .str "https://aud.test"),
               ("sub", .str "user-1"), ("client_id", .str "client-1")],
    headers := [("kid", some "k1")],
    privateKeyFilePath := "private_key.pem",
    wellKnownEndpoint := "https://wk.test/jwks.json",
    jwkFile := "jwks.json", debug := false }

/-- The JTI `envW`'s randomness produces. -/
def jtiW : String := base64URLEncode (rand16 envW)

/-- The defaulted claim set of `paramsW` under `envW`. -/
def dcW : Claims :=
  [("iss", .str "https://issuer.test"), ("aud", .str "https://aud.test"),
   ("sub", .str "user-1"), ("client_id", .str "client-1"),
   ("exp", .num 87400), ("iat", .num 1001), ("jti", .str jtiW)]

/-- The token header `paramsW` produces. -/
def headerW : TokenHeader := { alg := .RS256, typ := "JWT", kid := some "k1" }

/-- The signed token `createToken envW paramsW` returns. -/
def tokenW : SerializedJWT :=
  { header := headerW, payload := dcW, sig := .rsaSig .RS256 headerW dcW skW }

/-- The effect trace of `createToken envW paramsW`. -/
def trW : List Effect := [.fileRead "private_key.pem", .signOp, .fileRead "jwks.json"]

/-! ### Helper lemmas -/

theorem mapGet_mapSet_self (m : Claims) (k : String) (v : JValue) :
    mapGet (mapSet m k v) k = some v := by
  induction m with
  | nil => simp [mapSet, mapGet]
  | cons hd tl ih =>
    obtain ⟨k', v'⟩ := hd
    by_cases h : k' = k
    · simp [mapSet, mapGet, h]
    · simp [mapSet, mapGet, h, ih]

theorem mapGet_mapSet_other (m : Claims) (k k' : String) (v : JValue)
    (h : k' ≠ k) : mapGet (mapSet m k v) k' = mapGet m k' := by
  induction m with
  | nil => simp [mapSet, mapGet, Ne.symm h]
  | cons hd tl ih =>
    obtain ⟨k0, v0⟩ := hd
    by_cases h0 : k0 = k
    · subst h0
      simp [mapSet, mapGet, Ne.symm h]
    · simp [mapSet, mapGet, h0, ih]

theorem goNil_mapSet_self_num (m : Claims) (k : String) (n : Int) :
    goNil (mapSet m k (.num n)) k = false := by
  simp [goNil, mapGet_mapSet_self]

theorem goNil_mapSet_self_str (m : Claims) (k : String) (s : String) :
    goNil (mapSet m k (.str s)) k = false := by
  simp [goNil, mapGet_mapSet_self]

theorem goNil_mapSet_other (m : Claims) (k k' : String) (v : JValue)
    (h : k' ≠ k) : goNil (mapSet m k v) k' = goNil m k' := by
  simp [goNil, mapGet_mapSet_other m k k' v h]

/-! ### C4 — key-selection policy -/

/-- C4: for a non-empty JWK set, a provided keyID selects the exactly
(case-sensitively) matching key with no warning; a provided but absent
keyID emits a warning and falls back to the first key; no keyID selects
the first key; an empty set fails with an error. -/
theorem key_selection_policy (k0 : JWKKey) (rest : List JWKKey) (kid : String) :
    (∀ k, lookupKeyID (k0 :: rest) kid = some k →
        selectJwkKey (k0 :: rest) (some kid) = ([], .ok k) ∧ k.kid = kid)
  ∧ (lookupKeyID (k0 :: rest) kid = none →
        selectJwkKey (k0 :: rest) (some kid) = ([.printWarn kid], .ok k0))
  ∧ selectJwkKey (k0 :: rest) none = ([], .ok k0)
  ∧ (∀ kidq : Option String, (selectJwkKey [] kidq).2 = .error .noKeyFound) := by
  refine ⟨?_, ?_, ?_, ?_⟩
  · intro k hk
    refine ⟨by simp [selectJwkKey, hk], ?_⟩
    have hp := List.find?_some hk
    simpa using hp
  · intro hk
    simp [selectJwkKey, hk, jwkGet0]
  · simp [selectJwkKey, jwkGet0]
  · intro kidq
    cases kidq <;> simp [selectJwkKey, lookupKeyID, jwkGet0]

/-- Witness for C4 at the spec's example set `[A(kid=1), B(kid=2)]`. -/
theorem key_selection_policy_witness :
    (selectJwkKey [kA, kB] (some "2") = ([], .ok kB) ∧ kB.kid = "2")
  ∧ selectJwkKey [kA, kB] (some "9") = ([.printWarn "9"], .ok kA)
  ∧ selectJwkKey [kA, kB] none = ([], .ok kA)
  ∧ (selectJwkKey [] (some "2")).2 = .error .noKeyFound :=
  ⟨(key_selection_policy kA [kB] "2").1 kB (by decide),
   (key_selection_policy kA [kB] "9").2.1 (by decide),
   (key_selection_policy kA [kB] "9").2.2.1,
   (key_selection_policy kA [kB] "9").2.2.2 (some "2")⟩

/-! ### C10 — resolver output is accepted by the verifier's key parser -/

/-- C10: the PEM block the resolver produces (PKCS#1 DER under a
`PUBLIC KEY` label) is accepted by the verifier's PEM public-key parser
(golang-jwt v5 falls back to PKCS#1 after PKIX and certificate parsing
fail) and decodes to an RSA key with the JWK's modulus and exponent; so
every successfully resolved key is usable for verification. -/
theorem resolver_verifier_compat :
    (∀ (k : JWKKey) (pub : RSAPub), jwkRaw k = .ok pub →
      parseRSAPublicKeyFromPEM
        (pemEncodeToMemory { type := "PUBLIC KEY", bytes := marshalPKCS1PublicKey pub })
        = .ok pub ∧ pub.n = k.n ∧ pub.e = k.e)
  ∧ (∀ (env : Env) (p : GetJWKSetParams) (tr : List Effect) (pemOut : Bytes),
      getJwkSet env p = (tr, .ok pemOut) →
      ∃ pub : RSAPub, parseRSAPublicKeyFromPEM pemOut = .ok pub) := by
  constructor
  · intro k pub hk
    unfold jwkRaw at hk
    split at hk
    · cases hk
      exact ⟨rfl, rfl, rfl⟩
    · cases hk
  · intro env p tr pemOut h
    unfold getJwkSet at h
    split at h
    · injection h with h1 h2
      exact Except.noConfusion h2
    · rename_i tr1 jwkJSON heq
      split at h
      · injection h with h1 h2
        exact Except.noConfusion h2
      · split at h
        · injection h with h1 h2
          exact Except.noConfusion h2
        · split at h
          · injection h with h1 h2
            exact Except.noConfusion h2
          · rename_i rawKey heq4
            refine ⟨rawKey, ?_⟩
            injection h with h1 h2
            injection h2 with h2
            subst h2
            rfl

theorem not_rsa_of_none_or_hmac (m : SigningMethod)
    (h : m = .noneAlg ∨ m.isHMAC = true) : m.isRSAMethod = false := by
  rcases h with h | h
  · subst h
    rfl
  · cases m <;> simp_all [SigningMethod.isHMAC, SigningMethod.isRSAMethod]

/-! ### C5 — algorithm-confusion rejection -/

/-- C5: a token whose header declares `none` or an HMAC algorithm is
rejected by the verifier — with the unexpected-signing-method error
whenever the public key itself parses — regardless of the signature
content; and any token the verifier accepts declares an RSA-family
(RS256/RS384/RS512) algorithm. -/
theorem algorithm_confusion (t : SerializedJWT) (pk : Bytes) (now : Int) :
    ((t.header.alg = .noneAlg ∨ t.header.alg.isHMAC = true) →
        (∀ key, parseRSAPublicKeyFromPEM pk = .ok key →
            verifyToken t pk now = .error (.unexpectedSigningMethod t.header.alg.algName))
      ∧ (∀ d, verifyToken t pk now ≠ .ok d))
  ∧ (∀ d, verifyToken t pk now = .ok d → t.header.alg.isRSAMethod = true) := by
  constructor
  · intro halg
    have hrsa : t.header.alg.isRSAMethod = false := not_rsa_of_none_or_hmac _ halg
    constructor
    · intro key hkey
      simp [verifyToken, hkey, jwtParse, hrsa]
    · intro d hd
      unfold verifyToken at hd
      split at hd
      · exact Except.noConfusion hd
      · simp [jwtParse, hrsa] at hd
  · intro d hd
    unfold verifyToken at hd
    split at hd
    · exact Except.noConfusion hd
    · by_contra hc
      have hrsa : t.header.alg.isRSAMethod = false := by
        cases hF : t.header.alg.isRSAMethod
        · rfl
        · exact absurd hF hc
      simp [jwtParse, hrsa] at hd

/-- Witness for C5: a concrete HS256 token is rejected with the
unexpected-signing-method error and is never accepted. -/
theorem algorithm_confusion_witness :
    verifyToken hmacTokenW pemPubW 0 = .error (.unexpectedSigningMethod "HS256")
  ∧ (∀ d, verifyToken hmacTokenW pemPubW 0 ≠ .ok d) := by
  have h := (algorithm_confusion hmacTokenW pemPubW 0).1 (Or.inr (by decide))
  exact ⟨h.1 { n := 3233, e := 17 } (by decide), h.2⟩

/-- Witness for C10 at the concrete key `keyW` and a concrete resolver
run (remote fetch, first-key selection). -/
theorem resolver_verifier_compat_witness :
    (parseRSAPublicKeyFromPEM
        (pemEncodeToMemory
          { type := "PUBLIC KEY", bytes := marshalPKCS1PublicKey { n := 3233, e := 17 } })
        = .ok { n := 3233, e := 17 }
      ∧ (3233 : Nat) = keyW.n ∧ (17 : Nat) = keyW.e)
  ∧ ∃ pub : RSAPub,
      parseRSAPublicKeyFromPEM
        (pemEncodeToMemory
          { type := "PUBLIC KEY", bytes := marshalPKCS1PublicKey { n := 3233, e := 17 } })
        = .ok pub :=
  ⟨resolver_verifier_compat.1 keyW { n := 3233, e := 17 } (by decide),
   resolver_verifier_compat.2 env404 gparamsRemote
     [Effect.httpGet "https://wk.test/jwks.json"]
     (pemEncodeToMemory
       { type := "PUBLIC KEY", bytes := marshalPKCS1PublicKey { n := 3233, e := 17 } })
     (by decide)⟩

/-! ### C9 — JWK source failure -/

/-- Counterexample to C9: a non-2xx HTTP response (404) whose body is a
valid JWK set is NOT treated as a source failure — resolution succeeds. -/
theorem non2xx_not_source_failure :
    (getJwkSet env404 gparamsRemote).2 =
      .ok (pemEncodeToMemory
        { type := "PUBLIC KEY", bytes := marshalPKCS1PublicKey { n := 3233, e := 17 } }) := by
  decide

/-- C9 amended: key resolution fails when the local JWK file cannot be
read or the HTTP transport fails; the status code of a received response
is never inspected — the resolver's behaviour depends only on the
response body. -/
theorem jwk_source_failure (env env' : Env) (p : GetJWKSetParams) :
    (p.jwkFile ≠ "" → env.fs p.jwkFile = none →
        (getJwkSet env p).2 = .error (.fileReadError p.jwkFile))
  ∧ (p.jwkFile = "" → env.net p.wellKnownEndpoint = none →
        (getJwkSet env p).2 = .error (.httpTransportError p.wellKnownEndpoint))
  ∧ (env.fs = env'.fs →
     (∀ u, (env.net u).map HTTPResponse.body = (env'.net u).map HTTPResponse.body) →
        getJwkSet env p = getJwkSet env' p) := by
  refine ⟨?_, ?_, ?_⟩
  · intro h1 h2
    simp [getJwkSet, fetchJwkJSON, bne_iff_ne, h1, h2]
  · intro h1 h2
    simp [getJwkSet, fetchJwkJSON, bne_iff_ne, h1, h2]
  · intro hfs hnet
    have hfetch : fetchJwkJSON env p = fetchJwkJSON env' p := by
      unfold fetchJwkJSON
      rw [hfs]
      have h := hnet p.wellKnownEndpoint
      cases he : env.net p.wellKnownEndpoint with
      | none =>
        cases he' : env'.net p.wellKnownEndpoint with
        | none => rfl
        | some r =>
          rw [he, he'] at h
          simp at h
      | some r =>
        cases he' : env'.net p.wellKnownEndpoint with
        | none =>
          rw [he, he'] at h
          simp at h
        | some r' =>
          rw [he, he'] at h
          simp only [Option.map_some', Option.some.injEq] at h
          simp [h]
    unfold getJwkSet
    rw [hfetch]

/-- Witness for C9's amended statement: unreadable file fails, transport
failure fails, and a 404 response resolves identically to a 200 one. -/
theorem jwk_source_failure_witness :
    (getJwkSet envNoNet gparamsNoFile).2 = .error (.fileReadError "nofile.json")
  ∧ (getJwkSet envNoNet gparamsRemote).2 =
      .error (.httpTransportError "https://wk.test/jwks.json")
  ∧ getJwkSet env404 gparamsRemote = getJwkSet env200 gparamsRemote := by
  refine ⟨(jwk_source_failure envNoNet envNoNet gparamsNoFile).1 (by decide) (by decide),
          (jwk_source_failure envNoNet envNoNet gparamsRemote).2.1 rfl (by decide),
          (jwk_source_failure env404 env200 gparamsRemote).2.2 rfl ?_⟩
  intro u
  by_cases hu : u = "https://wk.test/jwks.json" <;> simp [env404, env200, hu]

/-! ### C8 — validation requires the well-known endpoint -/

/-- Counterexample to C8: a configuration with all required claims and a
local JWK file but no well-known endpoint is REJECTED by validation. -/
theorem local_jwk_without_endpoint_rejected :
    (checkConfig envNoWk (some "config.json")).2 = .error (.missingConfigField "wk_path") := by
  decide

/-- C8 amended: config validation unconditionally requires the
well-known endpoint — with all required claims present it fails with the
`wk_path` error whenever the endpoint is absent, even if a local JWK
file is configured; a configured local JWK file takes precedence only at
resolution time, where the resolver reads the file and contacts no URL. -/
theorem wk_endpoint_required (env : Env) (path : String) (c : Config)
    (hfs : env.fs path = some (.configDoc c))
    (hiss : goNil c.claims "iss" = false)
    (haud : goNil c.claims "aud" = false)
    (hsub : goNil c.claims "sub" = false)
    (hcid : goNil c.claims "client_id" = false)
    (hwk : c.wellKnownEndpoint = none) :
    (checkConfig env (some path)).2 = .error (.missingConfigField "wk_path")
  ∧ (∀ (env' : Env) (p : GetJWKSetParams), p.jwkFile ≠ "" →
      fetchJwkJSON env' p =
        ([.fileRead p.jwkFile],
          match env'.fs p.jwkFile with
          | some b => .ok b
          | none => .error (.fileReadError p.jwkFile))) := by
  constructor
  · simp [checkConfig, hfs, hiss, haud, hsub, hcid, hwk]
  · intro env' p hl
    simp [fetchJwkJSON, bne_iff_ne, hl]

/-- Witness for C8's amended statement at a concrete config and a
concrete local resolver call. -/
theorem wk_endpoint_required_witness :
    (checkConfig envNoWk (some "config.json")).2 = .error (.missingConfigField "wk_path")
  ∧ fetchJwkJSON envW
      { wellKnownEndpoint := "https://wk.test/jwks.json", jwkFile := "jwks.json",
        kid := none, debug := false } =
      ([.fileRead "jwks.json"], .ok (.jwksDoc [keyW])) := by
  have h := wk_endpoint_required envNoWk "config.json" cfgNoWk (by decide)
    (by decide) (by decide) (by decide) (by decide) (by decide)
  refine ⟨h.1, ?_⟩
  have h2 := h.2 envW
    { wellKnownEndpoint := "https://wk.test/jwks.json", jwkFile := "jwks.json",
      kid := none, debug := false } (by decide)
  rw [h2]
  decide

/-! ### C7 — azp is not accepted in place of client_id -/

/-- C7 (code bug): a configuration whose claims contain iss, aud, sub
and azp but no client_id is rejected by `checkConfig` with the
client_id error — `azp` is never consulted, contradicting the README's
"client_id (or azp)". -/
theorem azp_not_accepted :
    (checkConfig envAzp (some "config.json")).2 =
      .error (.missingConfigField "client_id") := by
  decide

/-! ### C2 — missing required claim: error, no I/O, but a nil panic -/

/-- C2 (code bug): on a config missing `iss`, `main` prints the error
naming `iss`, and no private-key read, JWK fetch or signing appears in
the trace — but because the `checkConfig` error branch lacks a `return`,
execution falls through into the `CreateTokenParams` literal and panics
dereferencing the nil `*Config` instead of aborting cleanly with the
error. -/
theorem main_missing_iss :
    goMain envNoIss flagsNoIss =
      ([.fileRead "claims.json", .printErr (.missingConfigField "iss")], .nilPanic) := by
  decide

/-! ### C3 — claim defaulting -/

theorem mapGet_defaultExp_other (env : Env) (claims : Claims) (k : String)
    (h : k ≠ "exp") : mapGet (defaultExp env claims) k = mapGet claims k := by
  unfold defaultExp
  by_cases h1 : goNil claims "exp" = true
  · rw [if_pos h1, mapGet_mapSet_other _ _ _ _ h]
  · rw [if_neg h1]

theorem goNil_defaultExp_other (env : Env) (claims : Claims) (k : String)
    (h : k ≠ "exp") : goNil (defaultExp env claims) k = goNil claims k := by
  simp [goNil, mapGet_defaultExp_other env claims k h]

theorem mapGet_defaultExp_exp (env : Env) (claims : Claims) :
    mapGet (defaultExp env claims) "exp" =
      if goNil claims "exp" then some (.num (env.tExp + 86400))
      else mapGet claims "exp" := by
  unfold defaultExp
  by_cases h1 : goNil claims "exp" = true
  · rw [if_pos h1, if_pos h1, mapGet_mapSet_self]
  · rw [if_neg h1, if_neg h1]

theorem goNil_defaultExp_exp (env : Env) (claims : Claims) :
    goNil (defaultExp env claims) "exp" = false := by
  unfold defaultExp
  by_cases h1 : goNil claims "exp" = true
  · rw [if_pos h1]
    exact goNil_mapSet_self_num claims "exp" _
  · rw [if_neg h1]
    simpa using h1

theorem mapGet_defaultIat_other (env : Env) (claims : Claims) (k : String)
    (h : k ≠ "iat") : mapGet (defaultIat env claims) k = mapGet claims k := by
  unfold defaultIat
  by_cases h1 : goNil claims "iat" = true
  · rw [if_pos h1, mapGet_mapSet_other _ _ _ _ h]
  · rw [if_neg h1]

theorem goNil_defaultIat_other (env : Env) (claims : Claims) (k : String)
    (h : k ≠ "iat") : goNil (defaultIat env claims) k = goNil claims k := by
  simp [goNil, mapGet_defaultIat_other env claims k h]

theorem mapGet_defaultIat_iat (env : Env) (claims : Claims) :
    mapGet (defaultIat env claims) "iat" =
      if goNil claims "iat" then some (.num env.tIat)
      else mapGet claims "iat" := by
  unfold defaultIat
  by_cases h1 : goNil claims "iat" = true
  · rw [if_pos h1, if_pos h1, mapGet_mapSet_self]
  · rw [if_neg h1, if_neg h1]

theorem goNil_defaultIat_iat (env : Env) (claims : Claims) :
    goNil (defaultIat env claims) "iat" = false := by
  unfold defaultIat
  by_cases h1 : goNil claims "iat" = true
  · rw [if_pos h1]
    exact goNil_mapSet_self_num claims "iat" _
  · rw [if_neg h1]
    simpa using h1

/-- C3: signing defaults `exp` to now + 24h, `iat` to now, and `jti` to
16 random bytes in URL-safe base64, each only when nil; values already
present (non-nil) are preserved and all other claims untouched, and
defaulting an already-populated claim set is the identity (idempotence,
for any later environment). -/
theorem claim_defaulting (env : Env) (claims : Claims) (hrand : env.randOk = true) :
    ∃ dc : Claims, defaultClaims env claims = .ok dc
    ∧ (goNil claims "exp" = true → mapGet dc "exp" = some (.num (env.tExp + 86400)))
    ∧ (goNil claims "exp" = false → mapGet dc "exp" = mapGet claims "exp")
    ∧ (goNil claims "iat" = true → mapGet dc "iat" = some (.num env.tIat))
    ∧ (goNil claims "iat" = false → mapGet dc "iat" = mapGet claims "iat")
    ∧ (goNil claims "jti" = true →
        mapGet dc "jti" = some (.str (base64URLEncode (rand16 env)))
        ∧ (rand16 env).length = 16)
    ∧ (goNil claims "jti" = false → mapGet dc "jti" = mapGet claims "jti")
    ∧ (∀ k, k ≠ "exp" → k ≠ "iat" → k ≠ "jti" → mapGet dc k = mapGet claims k)
    ∧ (∀ env2 : Env, defaultClaims env2 dc = .ok dc) := by
  have hJ : generateJTI env = .ok (base64URLEncode (rand16 env)) := by
    simp [generateJTI, hrand]
  set c2 := defaultIat env (defaultExp env claims) with hc2
  set dcv := (if goNil c2 "jti"
      then mapSet c2 "jti" (JValue.str (base64URLEncode (rand16 env)))
      else c2) with hdcv
  have hjti_c2 : goNil c2 "jti" = goNil claims "jti" := by
    rw [hc2, goNil_defaultIat_other env _ "jti" (by decide),
        goNil_defaultExp_other env _ "jti" (by decide)]
  have hmain : defaultClaims env claims = .ok dcv := by
    rw [hdcv]
    by_cases h3 : goNil c2 "jti" = true
    · simp [defaultClaims, hJ, ← hc2, h3]
    · simp [defaultClaims, hJ, ← hc2, h3]
  have hget_exp : mapGet dcv "exp" = mapGet (defaultExp env claims) "exp" := by
    rw [hdcv]
    by_cases h3 : goNil c2 "jti" = true
    · rw [if_pos h3, mapGet_mapSet_other _ _ _ _ (by decide), hc2,
          mapGet_defaultIat_other env _ "exp" (by decide)]
    · rw [if_neg h3, hc2, mapGet_defaultIat_other env _ "exp" (by decide)]
  have hget_iat : mapGet dcv "iat" = mapGet (defaultIat env (defaultExp env claims)) "iat" := by
    rw [hdcv]
    by_cases h3 : goNil c2 "jti" = true
    · rw [if_pos h3, mapGet_mapSet_other _ _ _ _ (by decide), hc2]
    · rw [if_neg h3, hc2]
  have hnil_exp : goNil dcv "exp" = false := by
    have : goNil dcv "exp" = goNil (defaultExp env claims) "exp" := by
      simp [goNil, hget_exp]
    rw [this, goNil_defaultExp_exp]
  have hnil_iat : goNil dcv "iat" = false := by
    have : goNil dcv "iat" = goNil (defaultIat env (defaultExp env claims)) "iat" := by
      simp [goNil, hget_iat]
    rw [this, goNil_defaultIat_iat]
  have hnil_jti : goNil dcv "jti" = false := by
    rw [hdcv]
    by_cases h3 : goNil c2 "jti" = true
    · rw [if_pos h3]
      exact goNil_mapSet_self_str c2 "jti" _
    · rw [if_neg h3]
      simpa using h3
  refine ⟨dcv, hmain, ?_, ?_, ?_, ?_, ?_, ?_, ?_, ?_⟩
  · intro h1
    rw [hget_exp, mapGet_defaultExp_exp, if_pos h1]
  · intro h1
    rw [hget_exp, mapGet_defaultExp_exp, if_neg (by simp [h1])]
  · intro h2
    rw [hget_iat, mapGet_defaultIat_iat,
        if_pos (by rw [goNil_defaultExp_other env _ "iat" (by decide)]; exact h2)]
  · intro h2
    rw [hget_iat, mapGet_defaultIat_iat,
        if_neg (by rw [goNil_defaultExp_other env _ "iat" (by decide)]; simp [h2]),
        mapGet_defaultExp_other env _ "iat" (by decide)]
  · intro h3
    have h3' : goNil c2 "jti" = true := by rw [hjti_c2]; exact h3
    constructor
    · rw [hdcv, if_pos h3', mapGet_mapSet_self]
    · simp [rand16]
  · intro h3
    have h3' : goNil c2 "jti" = false := by rw [hjti_c2]; exact h3
    rw [hdcv, if_neg (by simp [h3']), hc2,
        mapGet_defaultIat_other env _ "jti" (by decide),
        mapGet_defaultExp_other env _ "jti" (by decide)]
  · intro k hke hki hkj
    have step3 : mapGet dcv k = mapGet c2 k := by
      rw [hdcv]
      by_cases h3 : goNil c2 "jti" = true
      · rw [if_pos h3, mapGet_mapSet_other _ _ _ _ hkj]
      · rw [if_neg h3]
    rw [step3, hc2, mapGet_defaultIat_other env _ k hki,
        mapGet_defaultExp_other env _ k hke]
  · intro env2
    have he2 : defaultExp env2 dcv = dcv := by
      unfold defaultExp
      rw [hnil_exp]
      simp
    have hi2 : defaultIat env2 dcv = dcv := by
      unfold defaultIat
      rw [hnil_iat]
      simp
    simp [defaultClaims, he2, hi2, hnil_jti]

/-- Witness for C3 at a concrete claim set with none of exp/iat/jti. -/
theorem claim_defaulting_witness :
    ∃ dc : Claims, defaultClaims envW [("iss", JValue.str "i")] = .ok dc := by
  obtain ⟨dc, h, -⟩ := claim_defaulting envW [("iss", JValue.str "i")] rfl
  exact ⟨dc, h⟩

/-! ### createToken inversion -/

theorem tokenHeaderOf_fields (headers : Headers) :
    (tokenHeaderOf headers).alg = .RS256 ∧ (tokenHeaderOf headers).typ = "JWT"
    ∧ (tokenHeaderOf headers).kid = headerGet headers "kid" := by
  unfold tokenHeaderOf newWithClaimsHeader
  cases h : headerGet headers "kid" <;> simp

theorem verifyToken_ok_eq (t : SerializedJWT) (pk : Bytes) (now : Int)
    (d : SerializedJWT) (h : verifyToken t pk now = .ok d) : d = t := by
  unfold verifyToken at h
  split at h
  · exact Except.noConfusion h
  · unfold jwtParse at h
    split at h
    · exact Except.noConfusion h
    · split at h
      · split at h
        · injection h with h
          exact h.symm
        · exact Except.noConfusion h
      · exact Except.noConfusion h

theorem createToken_ok_inv (env : Env) (params : CreateTokenParams)
    (tr : List Effect) (t : SerializedJWT)
    (h : createToken env params = (tr, .ok t)) :
    ∃ (dc : Claims) (sk : RSAPriv) (pem : Bytes),
      defaultClaims env params.claims = .ok dc
      ∧ t = signedString (tokenHeaderOf params.headers) dc .RS256 sk
      ∧ (getJwkSet env
            { wellKnownEndpoint := params.wellKnownEndpoint,
              jwkFile := params.jwkFile,
              kid := headerGet params.headers "kid",
              debug := params.debug }).2 = .ok pem
      ∧ verifyToken t pem env.tVerify = .ok t := by
  unfold createToken at h
  split at h
  · injection h with h1 h2
    exact Except.noConfusion h2
  · rename_i dc hdc
    split at h
    · injection h with h1 h2
      exact Except.noConfusion h2
    · rename_i pkBytes hfs
      split at h
      · injection h with h1 h2
        exact Except.noConfusion h2
      · rename_i sk hpk
        split at h
        · injection h with h1 h2
          exact Except.noConfusion h2
        · rename_i tr2 pem hjwk
          dsimp only at h
          split at h
          · injection h with h1 h2
            exact Except.noConfusion h2
          · rename_i v hv
            injection h with h1 h2
            injection h2 with h2
            subst h2
            refine ⟨dc, sk, pem, hdc, rfl, ?_, ?_⟩
            · rw [hjwk]
            · have he := verifyToken_ok_eq _ pem env.tVerify v hv
              exact he ▸ hv

/-! ### C6 — header construction -/

/-- Counterexample to C6: with the kid override set (non-nil) but EMPTY,
the signed token's header contains the kid field with empty value — the
claim requires it to be omitted.  (The code tests only `!= nil`, not
non-emptiness.) -/
theorem empty_kid_included :
    (createToken envW paramsEmptyKid).2.map (fun t => t.header.kid) = .ok (some "") := by
  decide

/-- C6 amended: every signed token's header declares RS256 (typ JWT) and
carries the kid field exactly when the kid override is set and non-nil,
copying its value verbatim — including the empty string. -/
theorem header_construction (env : Env) (params : CreateTokenParams)
    (tr : List Effect) (t : SerializedJWT)
    (h : createToken env params = (tr, .ok t)) :
    t.header.alg = .RS256 ∧ t.header.typ = "JWT"
    ∧ t.header.kid = headerGet params.headers "kid" := by
  obtain ⟨dc, sk, pem, hdc, ht, hjwk, hv⟩ := createToken_ok_inv env params tr t h
  have hh : t.header = tokenHeaderOf params.headers := by
    rw [ht]
    rfl
  rw [hh]
  exact tokenHeaderOf_fields params.headers

/-- Witness for C6's amended statement at the concrete benign run. -/
theorem header_construction_witness :
    tokenW.header.alg = .RS256 ∧ tokenW.header.typ = "JWT"
    ∧ tokenW.header.kid = headerGet paramsW.headers "kid" :=
  header_construction envW paramsW trW tokenW (by decide)

/-! ### C1 — round-trip law -/

theorem getJwkSet_local_ok (env : Env) (gp : GetJWKSetParams) (keys : List JWKKey)
    (k : JWKKey) (pub : RSAPub)
    (hlocal : gp.jwkFile ≠ "") (hfs : env.fs gp.jwkFile = some (.jwksDoc keys))
    (hsel : (selectJwkKey keys gp.kid).2 = .ok k)
    (hraw : jwkRaw k = .ok pub) :
    ∃ trg, getJwkSet env gp =
      (trg, .ok (pemEncodeToMemory
        { type := "PUBLIC KEY", bytes := marshalPKCS1PublicKey pub })) := by
  have hbne : (gp.jwkFile != "") = true := by simpa [bne_iff_ne] using hlocal
  cases hs : selectJwkKey keys gp.kid with
  | mk tr2 res =>
    cases res with
    | error e =>
      rw [hs] at hsel
      exact absurd hsel (by simp)
    | ok kk =>
      rw [hs] at hsel
      simp only [Except.ok.injEq] at hsel
      subst hsel
      refine ⟨Effect.fileRead gp.jwkFile :: tr2, ?_⟩
      simp [getJwkSet, fetchJwkJSON, hbne, hfs, jwkParse, hs, hraw]

theorem verifyToken_selfcheck (h : TokenHeader) (p : Claims) (sk : RSAPriv) (now : Int)
    (halg : h.alg = .RS256) (hval : validateClaims now p = .ok ()) :
    verifyToken (signedString h p .RS256 sk)
      (pemEncodeToMemory { type := "PUBLIC KEY", bytes := marshalPKCS1PublicKey (rsaPublic sk) })
      now = .ok (signedString h p .RS256 sk) := by
  unfold verifyToken
  have hparse : parseRSAPublicKeyFromPEM
      (pemEncodeToMemory { type := "PUBLIC KEY", bytes := marshalPKCS1PublicKey (rsaPublic sk) })
      = .ok (rsaPublic sk) := rfl
  rw [hparse]
  unfold jwtParse
  simp [signedString, halg, SigningMethod.isRSAMethod, methodVerify, hval]

/-- C1: round-trip law.  First half: whenever the private-key file holds
a parseable RSA key, the JWK source is a readable local set from which
the selection policy picks the matching public half, randomness works,
and the defaulted claim set is temporally valid at self-verification
time, `createToken` succeeds, the returned token's decoded payload is
exactly the defaulted input claim set (input claims preserved, exp/iat/
jti filled in), and the token verifies against the resolved public key.
Second half: in every run whatsoever, a returned token is one whose
self-verification against the resolved key succeeded — a token that
signs but fails self-verification is an overall failure and is never
returned. -/
theorem createToken_roundtrip :
    (∀ (env : Env) (params : CreateTokenParams) (sk : RSAPriv) (pkBytes : Bytes)
        (keys : List JWKKey) (k : JWKKey) (dc : Claims),
      env.fs params.privateKeyFilePath = some pkBytes →
      parseRSAPrivateKeyFromPEM pkBytes = .ok sk →
      params.jwkFile ≠ "" →
      env.fs params.jwkFile = some (.jwksDoc keys) →
      (selectJwkKey keys (headerGet params.headers "kid")).2 = .ok k →
      jwkRaw k = .ok (rsaPublic sk) →
      defaultClaims env params.claims = .ok dc →
      validateClaims env.tVerify dc = .ok () →
      ∃ (tr : List Effect) (t : SerializedJWT) (pem : Bytes),
        createToken env params = (tr, .ok t)
        ∧ t.payload = dc
        ∧ (getJwkSet env
              { wellKnownEndpoint := params.wellKnownEndpoint,
                jwkFile := params.jwkFile,
                kid := headerGet params.headers "kid",
                debug := params.debug }).2 = .ok pem
        ∧ verifyToken t pem env.tVerify = .ok t)
  ∧ (∀ (env : Env) (params : CreateTokenParams) (tr : List Effect) (t : SerializedJWT),
      createToken env params = (tr, .ok t) →
      ∃ pem : Bytes,
        (getJwkSet env
            { wellKnownEndpoint := params.wellKnownEndpoint,
              jwkFile := params.jwkFile,
              kid := headerGet params.headers "kid",
              debug := params.debug }).2 = .ok pem
        ∧ verifyToken t pem env.tVerify = .ok t) := by
  constructor
  · intro env params sk pkBytes keys k dc hpkfs hpk hlocal hjwkfs hsel hraw hdc hval
    obtain ⟨trg, hgp⟩ := getJwkSet_local_ok env
      { wellKnownEndpoint := params.wellKnownEndpoint, jwkFile := params.jwkFile,
        kid := headerGet params.headers "kid", debug := params.debug }
      keys k (rsaPublic sk) hlocal hjwkfs hsel hraw
    have halg := (tokenHeaderOf_fields params.headers).1
    have hver := verifyToken_selfcheck (tokenHeaderOf params.headers) dc sk env.tVerify halg hval
    have hct : createToken env params =
        (Effect.fileRead params.privateKeyFilePath :: Effect.signOp :: trg,
          .ok (signedString (tokenHeaderOf params.headers) dc .RS256 sk)) := by
      simp [createToken, hdc, hpkfs, hpk, hgp, hver]
    exact ⟨_, _, _, hct, rfl, by rw [hgp], hver⟩
  · intro env params tr t h
    obtain ⟨dc, sk, pem, hdc, ht, hjwk, hv⟩ := createToken_ok_inv env params tr t h
    exact ⟨pem, hjwk, hv⟩

/-- Witness for C1 at the concrete benign run `envW`/`paramsW`. -/
theorem createToken_roundtrip_witness :
    ∃ (tr : List Effect) (t : SerializedJWT) (pem : Bytes),
      createToken envW paramsW = (tr, .ok t)
      ∧ t.payload = dcW
      ∧ (getJwkSet envW
            { wellKnownEndpoint := paramsW.wellKnownEndpoint,
              jwkFile := paramsW.jwkFile,
              kid := headerGet paramsW.headers "kid",
              debug := paramsW.debug }).2 = .ok pem
      ∧ verifyToken t pem envW.tVerify = .ok t :=
  createToken_roundtrip.1 envW paramsW skW pemPrivW [keyW] keyW dcW
    (by decide) (by decide) (by decide) (by decide)
    (by decide) (by decide) (by decide) (by decide)


end JwtTool
